import Mathlib

/-!
Verification of the Esperance Saguenay community-project platform
(`app.py` / `models.py`): a shallow embedding of its data model and of the
route handlers relevant to the project lifecycle, the contribution ledger,
account verification and the comment tree, together with theorems settling
the specification's claims against that embedding.

Rows of the relational store (peewee models) become Lean structures; each
table becomes a `List` of rows; each route handler becomes a pure function
from the relevant tables (and the request's form fields) to a result value
plus the updated tables.  `CharField`/`TextField` become `String`,
`IntegerField` becomes `Int`, `BooleanField` becomes `Bool`, nullable
fields become `Option`, `DateTimeField` becomes an abstract `Nat` tick,
and a foreign key becomes the `Nat` id of the referenced row.
-/

namespace ESag

/-- `models.py` `User`: prenom, nom, ville, email (unique), password_hash,
created_at, is_verified (default False), verification_code (nullable),
verification_created_at (nullable), is_admin (default False). -/
structure User where
  id : Nat
  prenom : String
  nom : String
  ville : String
  email : String
  password_hash : String
  created_at : Nat
  is_verified : Bool
  verification_code : Option String
  verification_created_at : Option Nat
  is_admin : Bool
  deriving Repr, DecidableEq

/-- `models.py` `Project`: createur (FK User), description, ville
(nullable), created_at, status (default "pending"), deleted_by_admin
(default False), comments_count (default 0), needs_count (default 0),
validated_at (nullable), archived_at (nullable), visits_count (default 0). -/
structure Project where
  id : Nat
  createur : Nat
  description : String
  ville : Option String
  created_at : Nat
  status : String
  deleted_by_admin : Bool
  comments_count : Int
  needs_count : Int
  validated_at : Option Nat
  archived_at : Option Nat
  visits_count : Int
  deriving Repr, DecidableEq

/-- `models.py` `Need`: project (FK), texte, is_fulfilled (default False),
fulfilled_at (nullable), is_money (default False), amount_goal (nullable). -/
structure Need where
  id : Nat
  project : Nat
  texte : String
  is_fulfilled : Bool
  fulfilled_at : Option Nat
  is_money : Bool
  amount_goal : Option Int
  deriving Repr, DecidableEq

/-- `models.py` `Media`: project (FK), filename, media_type. -/
structure Media where
  id : Nat
  project : Nat
  filename : String
  media_type : String
  deriving Repr, DecidableEq

/-- `models.py` `ProjectLink`: project (FK), url. -/
structure ProjectLink where
  id : Nat
  project : Nat
  url : String
  deriving Repr, DecidableEq

/-- `models.py` `Comment`: project (FK), auteur (FK User), contenu,
parent (nullable self FK), created_at.  Note: the model declares no
`updated_at` field. -/
structure Comment where
  id : Nat
  project : Nat
  auteur : Nat
  contenu : String
  parent : Option Nat
  created_at : Nat
  deriving Repr, DecidableEq

/-- `models.py` `Contribution`: need (FK), user (FK), amount,
created_at, updated_at. -/
structure Contribution where
  id : Nat
  need : Nat
  user : Nat
  amount : Int
  created_at : Nat
  updated_at : Nat
  deriving Repr, DecidableEq

/-- The relational store: one list of rows per table of `models.py`. -/
structure Store where
  users : List User
  projects : List Project
  needs : List Need
  medias : List Media
  links : List ProjectLink
  comments : List Comment
  contribs : List Contribution
  deriving Repr, DecidableEq

/-- Python's `str.strip()`: drop leading and trailing whitespace,
modelled on the string's character list. -/
def pyStrip (s : String) : String :=
  ⟨((s.data.dropWhile Char.isWhitespace).reverse.dropWhile Char.isWhitespace).reverse⟩

/-- Python's `str.lower()`: lower-case every character, modelled on the
string's character list. -/
def pyLower (s : String) : String :=
  ⟨s.data.map Char.toLower⟩

/-! ## Contribution ledger (`contribute_to_need`, app.py lines 881-924) -/

/-- Python truthiness of a nullable integer column: `None` and `0` are
falsy, every other value truthy (used by
`if need.is_money and need.amount_goal and ...`). -/
def optTruthy : Option Int → Bool
  | none => false
  | some v => v != 0

/-- `SELECT SUM(amount) WHERE need = nid ... or 0`: the sum of the amounts
of the contributions recorded against need `nid` (0 when there are none). -/
def contribSum (cs : List Contribution) (nid : Nat) : Int :=
  ((cs.filter fun c => c.need == nid).map Contribution.amount).sum

/-- Outcome of the `contribute_to_need` route. -/
inductive ContribResult where
  | notFound
  | invalidAmount
  | overCap (remaining : Int)
  | accepted
  deriving Repr, DecidableEq

/-- app.py `contribute_to_need` (lines 881-924).  `raw` is the result of
`int(request.form.get("amount").strip())`: `none` models a `ValueError`
(clamped to 0 by the handler), `some a` a successful parse.  `newId` and
`now` stand for the fresh row id and timestamp of the created row. -/
def contribute_to_need (needs : List Need) (cs : List Contribution)
    (uid needId : Nat) (raw : Option Int) (newId now : Nat) :
    ContribResult × List Contribution :=
  match needs.find? fun n => n.id == needId with
  | none => (.notFound, cs)
  | some need =>
    let amount := raw.getD 0
    if amount ≤ 0 then (.invalidAmount, cs)
    else
      let total := contribSum cs need.id
      let remaining := need.amount_goal.getD 0 - total
      if need.is_money = true ∧ optTruthy need.amount_goal = true ∧ remaining < amount then
        (.overCap remaining, cs)
      else
        (.accepted, cs ++ [{ id := newId, need := need.id, user := uid,
                             amount := amount, created_at := now, updated_at := now }])

/-- One contribution request: contributing user, target need id, parsed
amount, fresh row id, timestamp. -/
structure ContribReq where
  uid : Nat
  needId : Nat
  raw : Option Int
  newId : Nat
  now : Nat
  deriving Repr, DecidableEq

/-- Run a sequence of `contribute_to_need` requests, threading the
contributions table through. -/
def runContribs (needs : List Need) (cs : List Contribution) :
    List ContribReq → List Contribution
  | [] => cs
  | r :: rest =>
      runContribs needs (contribute_to_need needs cs r.uid r.needId r.raw r.newId r.now).2 rest

/-! ## Public index (`index`, app.py lines 316-330) -/

/-- app.py `index`: the landing page lists the projects with
`status == "validated"` and `deleted_by_admin == False`, newest first
(`created_at` descending), inner-joined with their creator `User` row. -/
def index_projects (st : Store) : List Project :=
  ((st.projects.filter fun p =>
      p.status == "validated" && !p.deleted_by_admin).filter fun p =>
        st.users.any fun u => u.id == p.createur).mergeSort
    fun a b => decide (b.created_at ≤ a.created_at)

/-! ## Admin project lifecycle (`manage_projects`, app.py lines 792-844) -/

/-- app.py `manage_projects` POST body (lines 809-831): the effect of one
admin action on the project row.  `archive` and `unarchive` are guarded by
the current status; an unknown action leaves the row unchanged (the row is
re-saved as-is). -/
def manage_projects_action (p : Project) (action : String) : Project :=
  if action = "set_pending" then { p with status := "pending", deleted_by_admin := false }
  else if action = "validate" then { p with status := "validated", deleted_by_admin := false }
  else if action = "archive" then
    if p.status = "validated" then { p with status := "archived" } else p
  else if action = "unarchive" then
    if p.status = "archived" then { p with status := "validated" } else p
  else if action = "delete" then { p with deleted_by_admin := true }
  else p

/-- app.py `manage_projects` POST (lines 799-834): applies the action and
then unconditionally flashes ("Statut du projet mis à jour.", "success");
no branch reports an error for an action whose precondition fails. -/
def manage_projects_post (p : Project) (action : String) :
    Project × String × String :=
  (manage_projects_action p action, "Statut du projet mis à jour.", "success")

/-! ## Project deletion (`delete_project`, app.py lines 848-877) -/

inductive DeleteProjectResult where
  | notFoundP
  | notAuthor
  | deletedP
  deriving Repr, DecidableEq

/-- app.py `delete_project`: only the creator or an admin may delete; in
one transaction it deletes the project's `Comment`, `Need`, `ProjectLink`
and `Media` rows and then the project row itself.  No `Contribution` row
is touched by this handler. -/
def delete_project (st : Store) (actor : User) (pid : Nat) :
    DeleteProjectResult × Store :=
  match st.projects.find? fun p => p.id == pid with
  | none => (.notFoundP, st)
  | some p =>
    if p.createur != actor.id && !actor.is_admin then (.notAuthor, st)
    else
      (.deletedP,
        { st with
          comments := st.comments.filter fun c => c.project != pid
          needs := st.needs.filter fun n => n.project != pid
          links := st.links.filter fun l => l.project != pid
          medias := st.medias.filter fun m => m.project != pid
          projects := st.projects.filter fun q => q.id != pid })

/-! ## Comment tree (`edit_comment` / `delete_comment`, app.py 698-749) -/

inductive DeleteCommentResult where
  | notFoundC
  | notAuthor
  | deletedC
  deriving Repr, DecidableEq

inductive EditCommentResult where
  | notFoundC
  | notAuthor
  | emptyContent
  | attributeError
  deriving Repr, DecidableEq

/-- app.py `delete_comment` (lines 731-749).  The route calls
`comment.delete_instance(recursive=True)`.  Peewee's `delete_instance`
with `recursive=True` and the default `delete_nullable=False` does not
delete rows that reference the instance through a nullable foreign key: it
updates that key to NULL instead.  `Comment.parent` is declared
`null=True` in `models.py`, so the direct replies get `parent = NULL` and
only the comment row itself is deleted. -/
def delete_comment (comments : List Comment) (actorId cid : Nat) :
    DeleteCommentResult × List Comment :=
  match comments.find? fun c => c.id == cid with
  | none => (.notFoundC, comments)
  | some c =>
    if c.auteur != actorId then (.notAuthor, comments)
    else
      (.deletedC,
        (comments.map fun d =>
            if d.parent == some cid then { d with parent := none } else d).filter
          fun d => d.id != cid)

/-- app.py `edit_comment` POST (lines 698-728).  After the author check
and the non-empty check succeed, line 718 evaluates
`Comment.updated_at.default()`; `models.py` declares no `updated_at` field
on `Comment`, so Python raises `AttributeError` before `comment.save()`
runs: the request fails and no row is written. -/
def edit_comment (comments : List Comment) (actorId cid : Nat)
    (newContent : String) : EditCommentResult × List Comment :=
  match comments.find? fun c => c.id == cid with
  | none => (.notFoundC, comments)
  | some c =>
    if c.auteur != actorId then (.notAuthor, comments)
    else if pyStrip newContent = "" then (.emptyContent, comments)
    else (.attributeError, comments)

/-! ## Writes to the `project` table (for the frame claim) -/

/-- `Project.create` in `new_project` (app.py lines 546-551), with the
`models.py` column defaults for everything the handler does not pass:
status "pending", deleted_by_admin false, counters 0, validated_at and
archived_at null, visits_count 0. -/
def mkProject (id uid : Nat) (desc : String) (ville : Option String)
    (now : Nat) : Project :=
  { id := id, createur := uid, description := desc, ville := ville,
    created_at := now, status := "pending", deleted_by_admin := false,
    comments_count := 0, needs_count := 0, validated_at := none,
    archived_at := none, visits_count := 0 }

/-- app.py `edit_project` POST (lines 630-634): rewrites description and
ville of the fetched project row. -/
def edit_project_row (ps : List Project) (pid : Nat) (desc ville : String) :
    List Project :=
  ps.map fun p =>
    if p.id == pid then { p with description := desc, ville := some ville } else p

/-- app.py `project_detail` (lines 360-362): `visits_count += 1` on the
fetched project row. -/
def visit_project (ps : List Project) (pid : Nat) : List Project :=
  ps.map fun p =>
    if p.id == pid then { p with visits_count := p.visits_count + 1 } else p

/-- app.py `manage_projects` POST applied to the projects table: the
fetched row is replaced by the action's result. -/
def manage_projects_table (ps : List Project) (pid : Nat) (action : String) :
    List Project :=
  ps.map fun p => if p.id == pid then manage_projects_action p action else p

/-- Project-row removal (`delete_project` line 874 and `delete_account`
line 777 both call `p.delete_instance()`). -/
def remove_project (ps : List Project) (pid : Nat) : List Project :=
  ps.filter fun p => p.id != pid

/-- app.py `delete_account` (lines 770-777): removes every project created
by the deleted user. -/
def remove_user_projects (ps : List Project) (uid : Nat) : List Project :=
  ps.filter fun p => p.createur != uid

/-- One step of the system on the `project` table: the app.py handlers
that write that table (`new_project`, `edit_project`, `project_detail`,
`manage_projects`, `delete_project`, `delete_account`). -/
inductive ProjStep : List Project → List Project → Prop
  | create (ps : List Project) (i u : Nat) (d : String) (v : Option String)
      (t : Nat) : ProjStep ps (ps ++ [mkProject i u d v t])
  | edit (ps : List Project) (pid : Nat) (d v : String) :
      ProjStep ps (edit_project_row ps pid d v)
  | visit (ps : List Project) (pid : Nat) :
      ProjStep ps (visit_project ps pid)
  | admin (ps : List Project) (pid : Nat) (action : String) :
      ProjStep ps (manage_projects_table ps pid action)
  | remove (ps : List Project) (pid : Nat) :
      ProjStep ps (remove_project ps pid)
  | removeUser (ps : List Project) (uid : Nat) :
      ProjStep ps (remove_user_projects ps uid)

/-- A reachable projects table: produced from the empty table by any
sequence of handler steps. -/
def ReachableProjects (ps : List Project) : Prop :=
  Relation.ReflTransGen ProjStep [] ps

/-! ## Account lifecycle (`signup` / `verify_account`, app.py 401-487) -/

inductive SignupResult where
  | missingFields
  | duplicateEmail
  | ok
  deriving Repr, DecidableEq

inductive VerifyResult where
  | missingFields
  | noSuchAccount
  | alreadyVerified
  | codeMismatch
  | verified
  deriving Repr, DecidableEq

/-- app.py `generate_verification_code` (lines 61-66):
`f"{random.randint(0, 99999):05d}"` — the decimal digits of the drawn
number, zero-padded on the left to width 5.  The argument `n` stands for
the number returned by `random.randint(0, 99999)`. -/
def generate_verification_code (n : Nat) : String :=
  let ds := (Nat.digits 10 n).reverse.map fun d => Char.ofNat (48 + d)
  ⟨List.replicate (5 - ds.length) '0' ++ ds⟩

/-- app.py `signup` POST (lines 401-447): the five form fields are
stripped (the email also lower-cased); all must be non-empty; a user whose
stored email equals the normalized email must not already exist; on
success the user row is created unverified with the normalized email, the
generated code and the issuance timestamp `now`.  `passwordHash` stands
for `generate_password_hash(mot_de_passe)` (an external collaborator). -/
def signup (users : List User) (prenom nom ville rawEmail password : String)
    (passwordHash : String) (n : Nat) (now newId : Nat) :
    SignupResult × List User :=
  let prenom := pyStrip prenom
  let nom := pyStrip nom
  let ville := pyStrip ville
  let email := pyLower (pyStrip rawEmail)
  if prenom = "" ∨ nom = "" ∨ ville = "" ∨ email = "" ∨ password = "" then
    (.missingFields, users)
  else if users.any fun u => u.email == email then (.duplicateEmail, users)
  else
    (.ok, users ++
      [{ id := newId, prenom := prenom, nom := nom, ville := ville,
         email := email, password_hash := passwordHash, created_at := now,
         is_verified := false,
         verification_code := some (generate_verification_code n),
         verification_created_at := some now, is_admin := false }])

/-- The row update performed on the matched user by a successful
verification (app.py lines 478-481): `is_verified = True`, code and
issuance timestamp cleared, then `user.save()` writes the row with that
primary key back. -/
def activate (uid : Nat) (users : List User) : List User :=
  users.map fun v =>
    if v.id == uid then
      { v with is_verified := true, verification_code := none,
               verification_created_at := none }
    else v

/-- app.py `verify_account` POST (lines 450-487): the submitted email is
stripped and lower-cased and the code stripped; empty fields redirect with
a warning; the user is looked up by exact email; an already-verified
account answers `alreadyVerified`; a submitted code differing from the
stored one answers `codeMismatch`; otherwise the account row is activated:
`is_verified := true` and the code and issuance timestamp are cleared. -/
def verify_account (users : List User) (rawEmail rawCode : String) :
    VerifyResult × List User :=
  let email := pyLower (pyStrip rawEmail)
  let code := pyStrip rawCode
  if email = "" ∨ code = "" then (.missingFields, users)
  else
    match users.find? fun u => u.email == email with
    | none => (.noSuchAccount, users)
    | some u =>
      if u.is_verified then (.alreadyVerified, users)
      else if u.verification_code != some code then (.codeMismatch, users)
      else (.verified, activate u.id users)

/-! ## Shared concrete rows for witnesses and counterexamples -/

def demoUnverified : User :=
  { id := 2, prenom := "Bob", nom := "Roy", ville := "La Baie",
    email := "bob@example.com", password_hash := "h2", created_at := 0,
    is_verified := false, verification_code := some "12345",
    verification_created_at := some 3, is_admin := false }

def demoUser : User :=
  { id := 1, prenom := "Ana", nom := "Roy", ville := "Chicoutimi",
    email := "ana@example.com", password_hash := "h", created_at := 0,
    is_verified := true, verification_code := none,
    verification_created_at := none, is_admin := false }

def demoProject : Project :=
  { id := 1, createur := 1, description := "jardin communautaire",
    ville := some "Chicoutimi", created_at := 0, status := "validated",
    deleted_by_admin := false, comments_count := 0, needs_count := 0,
    validated_at := none, archived_at := none, visits_count := 0 }

def demoNeed : Need :=
  { id := 1, project := 1, texte := "terre", is_fulfilled := false,
    fulfilled_at := none, is_money := true, amount_goal := some 50 }

def demoContribution : Contribution :=
  { id := 1, need := 1, user := 1, amount := 10, created_at := 0,
    updated_at := 0 }

def demoStore : Store :=
  { users := [demoUser], projects := [demoProject], needs := [demoNeed],
    medias := [], links := [], comments := [], contribs := [demoContribution] }

/-! ## Theorems -/

theorem contribSum_append (cs : List Contribution) (c : Contribution) (nid : Nat) :
    contribSum (cs ++ [c]) nid =
      contribSum cs nid + (if c.need = nid then c.amount else 0) := by
  simp only [contribSum, List.filter_append, List.map_append, List.sum_append]
  by_cases h : c.need = nid <;> simp [h]

theorem find?_id_eq {needs : List Need} {m : Need} {needId : Nat}
    (h : needs.find? (fun n => n.id == needId) = some m) : m.id = needId := by
  have := List.find?_some h
  simpa using this

/-- One accepted-or-rejected `contribute_to_need` call can not push the
contribution sum of a money need with a positive goal above that goal. -/
theorem contribute_preserves_cap (needs : List Need) (n : Need) (g : Int)
    (hfind : needs.find? (fun m => m.id == n.id) = some n)
    (hmoney : n.is_money = true) (hgoal : n.amount_goal = some g) (hg : 0 < g)
    (cs : List Contribution) (hsum : contribSum cs n.id ≤ g) (r : ContribReq) :
    contribSum (contribute_to_need needs cs r.uid r.needId r.raw r.newId r.now).2 n.id ≤ g := by
  unfold contribute_to_need
  cases hfind2 : needs.find? (fun m => m.id == r.needId) with
  | none => simpa using hsum
  | some m =>
    have hmid : m.id = r.needId := find?_id_eq hfind2
    dsimp only
    by_cases hne : r.needId = n.id
    · have hm : n = m := by
        rw [hne, hfind] at hfind2
        exact Option.some.inj hfind2
      subst hm
      split_ifs with h1 h2
      · exact hsum
      · exact hsum
      · rw [contribSum_append, if_pos rfl]
        dsimp only
        push_neg at h2
        have htr : optTruthy n.amount_goal = true := by
          simp [hgoal, optTruthy, hg.ne']
        have := h2 hmoney htr
        simp only [hgoal, Option.getD_some] at this
        omega
    · split_ifs with h1 h2
      · exact hsum
      · exact hsum
      · rw [contribSum_append, if_neg]
        · simpa using hsum
        · rw [hmid]; exact hne

/-- C1. For every `Need` with `is_money = true` and a set (positive)
`amount_goal = g`: after any sequence of `contribute_to_need` requests the
sum of the need's contribution amounts stays at most `g`, and any request
whose amount exceeds `g` minus the current sum is answered `overCap` with
the exact remaining balance, leaving the contributions table unchanged. -/
theorem contribution_cap_invariant (needs : List Need) (n : Need) (g : Int)
    (hfind : needs.find? (fun m => m.id == n.id) = some n)
    (hmoney : n.is_money = true) (hgoal : n.amount_goal = some g) (hg : 0 < g)
    (cs : List Contribution) (hsum : contribSum cs n.id ≤ g)
    (reqs : List ContribReq) :
    contribSum (runContribs needs cs reqs) n.id ≤ g ∧
    (∀ a uid newId now, g - contribSum cs n.id < a →
      contribute_to_need needs cs uid n.id (some a) newId now =
        (.overCap (g - contribSum cs n.id), cs)) := by
  constructor
  · induction reqs generalizing cs with
    | nil => simpa [runContribs] using hsum
    | cons r rest ih =>
      rw [runContribs]
      exact ih _ (contribute_preserves_cap needs n g hfind hmoney hgoal hg cs hsum r)
  · intro a uid newId now hover
    unfold contribute_to_need
    rw [hfind]
    dsimp only [Option.getD_some]
    have htr : optTruthy n.amount_goal = true := by
      simp [hgoal, optTruthy, hg.ne']
    have hlt : n.amount_goal.getD 0 - contribSum cs n.id < a := by
      rw [hgoal]; simpa using hover
    split_ifs with h1 h2
    · omega
    · simp [hgoal]
    · exact absurd ⟨hmoney, htr, hlt⟩ h2

/-- Witness for C1 on the spec's own scenario: goal 100, contribute 60
then 50 (rejected) then 40; the sum stays at 100 and a request of 101
against the empty ledger is rejected with remaining 100. -/
theorem contribution_cap_invariant_witness :
    contribSum (runContribs
      [{ id := 1, project := 1, texte := "toit", is_fulfilled := false,
         fulfilled_at := none, is_money := true, amount_goal := some 100 }] []
      [⟨7, 1, some 60, 1, 10⟩, ⟨7, 1, some 50, 2, 11⟩, ⟨7, 1, some 40, 3, 12⟩]) 1 ≤ 100 ∧
    contribute_to_need
      [{ id := 1, project := 1, texte := "toit", is_fulfilled := false,
         fulfilled_at := none, is_money := true, amount_goal := some 100 }] [] 7 1
      (some 101) 1 10 = (.overCap 100, []) := by
  have h := contribution_cap_invariant
    [{ id := 1, project := 1, texte := "toit", is_fulfilled := false,
       fulfilled_at := none, is_money := true, amount_goal := some 100 }]
    { id := 1, project := 1, texte := "toit", is_fulfilled := false,
      fulfilled_at := none, is_money := true, amount_goal := some 100 }
    100 (by decide) rfl rfl (by decide) [] (by decide)
    [⟨7, 1, some 60, 1, 10⟩, ⟨7, 1, some 50, 2, 11⟩, ⟨7, 1, some 40, 3, 12⟩]
  exact ⟨h.1, h.2 101 7 1 10 (by decide)⟩

/-- C7. A contribute request aimed at an existing need whose amount input
fails to parse (modelled `raw = none`, clamped to 0 by the handler) or
parses to a non-positive integer is rejected as `invalidAmount` and
creates no `Contribution` row: the ledger is returned unchanged. -/
theorem invalid_amount_rejected (needs : List Need) (cs : List Contribution)
    (uid needId newId now : Nat) (need : Need) (raw : Option Int)
    (hfind : needs.find? (fun m => m.id == needId) = some need)
    (hbad : raw = none ∨ ∃ a, raw = some a ∧ a ≤ 0) :
    contribute_to_need needs cs uid needId raw newId now = (.invalidAmount, cs) := by
  unfold contribute_to_need
  rw [hfind]
  dsimp only
  rcases hbad with h | ⟨a, ha, hle⟩
  · subst h; simp
  · subst ha; simp [hle]

/-- Witness for C7: a non-numeric amount against the demo need is rejected
with the ledger left empty. -/
theorem invalid_amount_rejected_witness :
    contribute_to_need [demoNeed] [] 7 1 none 2 5 = (.invalidAmount, []) :=
  invalid_amount_rejected [demoNeed] [] 7 1 2 5 demoNeed none (by decide) (Or.inl rfl)

/-- C3. A project appears in the public index listing iff its status is
"validated" and `deleted_by_admin` is false — assuming referential
integrity (every project's creator exists in `users`), which the foreign
key provides; changing either field therefore moves the project in or out
of the listing. -/
theorem index_membership_iff (st : Store)
    (href : ∀ p ∈ st.projects, ∃ u ∈ st.users, u.id = p.createur)
    (p : Project) :
    p ∈ index_projects st ↔
      p ∈ st.projects ∧ p.status = "validated" ∧ p.deleted_by_admin = false := by
  unfold index_projects
  rw [List.mem_mergeSort]
  simp only [List.mem_filter, List.any_eq_true, Bool.and_eq_true, beq_iff_eq,
    Bool.not_eq_true']
  constructor
  · rintro ⟨⟨hp, hs, hd⟩, -⟩
    exact ⟨hp, hs, hd⟩
  · rintro ⟨hp, hs, hd⟩
    refine ⟨⟨hp, hs, hd⟩, ?_⟩
    obtain ⟨u, hu, hid⟩ := href p hp
    exact ⟨u, hu, by simpa using hid⟩

/-- Witness for C3: the validated, non-deleted demo project is listed. -/
theorem index_membership_iff_witness :
    demoProject ∈ index_projects demoStore :=
  (index_membership_iff demoStore
      (by intro p hp; exact ⟨demoUser, by simp [demoStore],
        by simp [demoStore] at hp; simp [hp, demoUser, demoProject]⟩)
      demoProject).mpr
    ⟨by simp [demoStore], by simp [demoProject], by simp [demoProject]⟩

/-- C6. The admin `archive` action sets the status to "archived" only when
the current status is "validated", and `unarchive` sets it to "validated"
only when the current status is "archived"; otherwise the project row is
returned entirely unchanged, and in every case the handler flashes the
"success" category, reporting no error to the caller. -/
theorem archive_unarchive_guarded (p : Project) :
    (manage_projects_post p "archive").1 =
      (if p.status = "validated" then { p with status := "archived" } else p) ∧
    (manage_projects_post p "unarchive").1 =
      (if p.status = "archived" then { p with status := "validated" } else p) ∧
    (manage_projects_post p "archive").2.2 = "success" ∧
    (manage_projects_post p "unarchive").2.2 = "success" :=
  ⟨rfl, rfl, rfl, rfl⟩

/-- C2 (code bug): `delete_project` removes the project's needs (and
media, links, comments, and the project row) but leaves the contributions
recorded against those needs in the store: with one project owning one
need that has one contribution, the delete succeeds, the needs table comes
back empty, yet the contribution row is still present. -/
theorem delete_project_leaves_contributions :
    (delete_project demoStore demoUser 1).1 = .deletedP ∧
    (delete_project demoStore demoUser 1).2.needs = [] ∧
    (delete_project demoStore demoUser 1).2.projects = [] ∧
    (delete_project demoStore demoUser 1).2.contribs = [demoContribution] := by
  decide

/-- C8 (code bug): the author deletes their root comment which has one
reply; the reply is not removed — it survives with `parent` set to NULL
(peewee nulls nullable foreign keys instead of cascading), so a post-delete
lookup of the descendant still finds it. -/
theorem delete_comment_keeps_reply :
    (delete_comment
        [{ id := 1, project := 1, auteur := 7, contenu := "racine",
           parent := none, created_at := 0 },
         { id := 2, project := 1, auteur := 8, contenu := "merci",
           parent := some 1, created_at := 1 }] 7 1) =
      (.deletedC,
        [{ id := 2, project := 1, auteur := 8, contenu := "merci",
           parent := none, created_at := 1 }]) := by
  decide

/-- C9 (code bug): the author edits their own comment with non-empty
content — the claimed success path — but the handler hits the
`Comment.updated_at` AttributeError (the model has no such field) and the
comments table is returned unchanged: neither content nor any timestamp is
updated. -/
theorem edit_comment_attribute_error :
    (edit_comment
        [{ id := 1, project := 1, auteur := 7, contenu := "racine",
           parent := none, created_at := 0 }] 7 1 "nouveau texte") =
      (.attributeError,
        [{ id := 1, project := 1, auteur := 7, contenu := "racine",
           parent := none, created_at := 0 }]) := by
  decide

theorem find?_email_eq (e : String) (u : User) :
    ∀ users : List User, (users.map User.email).Nodup → u ∈ users →
      u.email = e → users.find? (fun v => v.email == e) = some u := by
  intro users
  induction users with
  | nil => intro _ hu _; cases hu
  | cons v rest ih =>
    intro hnd hu he
    simp only [List.map_cons, List.nodup_cons] at hnd
    rcases List.mem_cons.mp hu with rfl | hu2
    · exact List.find?_cons_of_pos _ (by simp [he])
    · have hv : ¬ v.email = e := by
        intro hveq
        exact hnd.1 (by rw [hveq, ← he]; exact List.mem_map_of_mem _ hu2)
      rw [List.find?_cons_of_neg _ (by simp [hv])]
      exact ih hnd.2 hu2 he

theorem activate_find?_email (users : List User) (uid : Nat) (e : String) :
    (activate uid users).find? (fun v => v.email == e) =
      (users.find? fun v => v.email == e).map fun v =>
        if v.id == uid then
          { v with is_verified := true, verification_code := none,
                   verification_created_at := none }
        else v := by
  unfold activate
  rw [List.find?_map]
  have hp : ((fun v : User => v.email == e) ∘ fun v : User =>
      if v.id == uid then
        { v with is_verified := true, verification_code := none,
                 verification_created_at := none }
      else v) = fun v : User => v.email == e := by
    funext v
    by_cases h : (v.id == uid) = true <;> simp [Function.comp, h]
  rw [hp]

/-- C4. With unique stored emails and `u` the account for the submitted
email: `verify_account` succeeds iff the submitted code equals the stored
(most recently issued) code and the account is not already verified; on
success the returned table is `activate u.id users` (verified flag set,
code and issuance timestamp cleared on that row) and re-running
`verify_account` on it answers `alreadyVerified` with the table
unchanged. -/
theorem verify_account_spec (users : List User) (rawEmail rawCode : String)
    (hnd : (users.map User.email).Nodup) (u : User) (hu : u ∈ users)
    (he : u.email = pyLower (pyStrip rawEmail))
    (hee : pyLower (pyStrip rawEmail) ≠ "") (hc : pyStrip rawCode ≠ "") :
    ((verify_account users rawEmail rawCode).1 = .verified ↔
      u.is_verified = false ∧ u.verification_code = some (pyStrip rawCode)) ∧
    (u.is_verified = false → u.verification_code = some (pyStrip rawCode) →
      (verify_account users rawEmail rawCode).2 = activate u.id users ∧
      verify_account (verify_account users rawEmail rawCode).2 rawEmail rawCode =
        (.alreadyVerified, (verify_account users rawEmail rawCode).2)) := by
  have hfind := find?_email_eq (pyLower (pyStrip rawEmail)) u users hnd hu he
  have hne : ¬ (pyLower (pyStrip rawEmail) = "" ∨ pyStrip rawCode = "") := by
    push_neg; exact ⟨hee, hc⟩
  constructor
  · unfold verify_account
    rw [if_neg hne, hfind]
    by_cases huv : u.is_verified
    · simp [huv]
    · by_cases hcm : u.verification_code = some (pyStrip rawCode) <;>
        simp [huv, hcm]
  · intro huv hcm
    have hstate : (verify_account users rawEmail rawCode).2 = activate u.id users := by
      unfold verify_account
      rw [if_neg hne, hfind]
      simp [huv, hcm]
    refine ⟨hstate, ?_⟩
    rw [hstate]
    unfold verify_account
    rw [if_neg hne, activate_find?_email, hfind]
    simp

/-- Witness for C4: the unverified demo account with stored code "12345"
is verified by the (stripped, case-normalized) matching request. -/
theorem verify_account_spec_witness :
    (verify_account [demoUnverified] "Bob@Example.COM " " 12345 ").1 = .verified :=
  ((verify_account_spec [demoUnverified] "Bob@Example.COM " " 12345 "
      (by decide) demoUnverified (by decide) (by decide) (by decide)
      (by decide)).1).mpr ⟨rfl, rfl⟩

theorem digits_len_le_five (n : Nat) (hn : n ≤ 99999) :
    (Nat.digits 10 n).length ≤ 5 := by
  by_cases h0 : n = 0
  · subst h0; simp
  · by_contra hgt
    push_neg at hgt
    have h1 : 10 ^ (Nat.digits 10 n).length ≤ 10 * n :=
      Nat.base_pow_length_digits_le 10 n (by norm_num) h0
    have h2 : (10 : Nat) ^ 6 ≤ 10 ^ (Nat.digits 10 n).length :=
      Nat.pow_le_pow_right (by norm_num) hgt
    omega

theorem generate_verification_code_length (n : Nat) (hn : n ≤ 99999) :
    (generate_verification_code n).length = 5 := by
  have h1 : (Nat.digits 10 n).length ≤ 5 := digits_len_le_five n hn
  simp only [generate_verification_code, String.length, List.length_append,
    List.length_replicate, List.length_map, List.length_reverse]
  omega

theorem generate_verification_code_digits (n : Nat) :
    ∀ c ∈ (generate_verification_code n).data, c.isDigit = true := by
  intro c hc
  simp only [generate_verification_code, List.mem_append, List.mem_replicate,
    List.mem_map, List.mem_reverse] at hc
  rcases hc with ⟨-, rfl⟩ | ⟨d, hd, rfl⟩
  · decide
  · have hd10 : d < 10 := Nat.digits_lt_base (by norm_num) hd
    interval_cases d <;> decide

/-- C5. Under the invariant that every stored email is lower-cased (which
registration itself maintains) and with the required fields non-empty
after stripping: if the submitted email already belongs (compared
case-insensitively) to a stored user, `signup` fails with
`duplicateEmail` and changes nothing; otherwise it succeeds and appends
the user row with the lower-cased stripped email, `is_verified = false`,
the zero-padded 5-digit decimal code for the drawn `n ≤ 99999` (every
character a digit) and the issuance timestamp. -/
theorem signup_spec (users : List User)
    (prenom nom ville rawEmail password passwordHash : String)
    (n now newId : Nat)
    (hlow : ∀ u ∈ users, pyLower u.email = u.email)
    (hp : pyStrip prenom ≠ "") (hq : pyStrip nom ≠ "") (hv : pyStrip ville ≠ "")
    (he : pyLower (pyStrip rawEmail) ≠ "") (hw : password ≠ "")
    (hn : n ≤ 99999) :
    ((∃ u ∈ users, pyLower u.email = pyLower (pyStrip rawEmail)) →
      signup users prenom nom ville rawEmail password passwordHash n now newId =
        (.duplicateEmail, users)) ∧
    ((∀ u ∈ users, pyLower u.email ≠ pyLower (pyStrip rawEmail)) →
      signup users prenom nom ville rawEmail password passwordHash n now newId =
        (.ok, users ++
          [{ id := newId, prenom := pyStrip prenom, nom := pyStrip nom,
             ville := pyStrip ville, email := pyLower (pyStrip rawEmail),
             password_hash := passwordHash, created_at := now,
             is_verified := false,
             verification_code := some (generate_verification_code n),
             verification_created_at := some now, is_admin := false }]) ∧
      (generate_verification_code n).length = 5 ∧
      ∀ c ∈ (generate_verification_code n).data, c.isDigit = true) := by
  have hne : ¬ (pyStrip prenom = "" ∨ pyStrip nom = "" ∨ pyStrip ville = "" ∨
      pyLower (pyStrip rawEmail) = "" ∨ password = "") := by
    push_neg; exact ⟨hp, hq, hv, he, hw⟩
  constructor
  · rintro ⟨u, hu, hdup⟩
    unfold signup
    rw [if_neg hne, if_pos]
    rw [List.any_eq_true]
    refine ⟨u, hu, ?_⟩
    rw [beq_iff_eq, ← hlow u hu]
    exact hdup
  · intro hfresh
    unfold signup
    rw [if_neg hne, if_neg]
    · exact ⟨rfl, generate_verification_code_length n hn,
        generate_verification_code_digits n⟩
    · rw [List.any_eq_true]
      rintro ⟨u, hu, hbeq⟩
      rw [beq_iff_eq] at hbeq
      exact hfresh u hu (by rw [hlow u hu]; exact hbeq)

/-- Witness for C5 on a table holding the (lower-cased) demo user: a
differently-cased duplicate of that email is rejected, and a fresh email
registers with the lower-cased address and the 5-digit code for n = 427. -/
theorem signup_spec_witness :
    signup [demoUser] "Zoe" "Tremblay" "Jonquiere" " Ana@Example.COM "
        "mdp" "hash1" 427 9 2 = (.duplicateEmail, [demoUser]) ∧
    signup [demoUser] "Zoe" "Tremblay" "Jonquiere" " Zoe@Example.COM "
        "mdp" "hash1" 427 9 2 =
      (.ok, [demoUser] ++
        [{ id := 2, prenom := "Zoe", nom := "Tremblay", ville := "Jonquiere",
           email := "zoe@example.com", password_hash := "hash1",
           created_at := 9, is_verified := false,
           verification_code := some (generate_verification_code 427),
           verification_created_at := some 9, is_admin := false }]) := by
  constructor
  · exact (signup_spec [demoUser] "Zoe" "Tremblay" "Jonquiere"
      " Ana@Example.COM " "mdp" "hash1" 427 9 2 (by decide) (by decide)
      (by decide) (by decide) (by decide) (by decide) (by decide)).1
      ⟨demoUser, by decide, by decide⟩
  · have h := (signup_spec [demoUser] "Zoe" "Tremblay" "Jonquiere"
      " Zoe@Example.COM " "mdp" "hash1" 427 9 2 (by decide) (by decide)
      (by decide) (by decide) (by decide) (by decide) (by decide)).2
      (by decide)
    exact h.1

theorem manage_projects_action_frame (p : Project) (action : String) :
    (manage_projects_action p action).id = p.id ∧
    (manage_projects_action p action).createur = p.createur ∧
    (manage_projects_action p action).description = p.description ∧
    (manage_projects_action p action).ville = p.ville ∧
    (manage_projects_action p action).created_at = p.created_at ∧
    (manage_projects_action p action).comments_count = p.comments_count ∧
    (manage_projects_action p action).needs_count = p.needs_count ∧
    (manage_projects_action p action).validated_at = p.validated_at ∧
    (manage_projects_action p action).archived_at = p.archived_at ∧
    (manage_projects_action p action).visits_count = p.visits_count := by
  unfold manage_projects_action
  split_ifs <;> exact ⟨rfl, rfl, rfl, rfl, rfl, rfl, rfl, rfl, rfl, rfl⟩

/-- The four never-written columns of a project row sit at their creation
defaults. -/
def untouchedColumns (p : Project) : Prop :=
  p.validated_at = none ∧ p.archived_at = none ∧
  p.comments_count = 0 ∧ p.needs_count = 0

/-- C10. Every admin lifecycle action rewrites only `status` and
`deleted_by_admin` (all other columns of the row are returned unchanged),
and in every reachable projects table the columns `validated_at`,
`archived_at`, `comments_count` and `needs_count` — which no handler ever
writes — still hold their creation defaults (null, null, 0, 0). -/
theorem admin_actions_frame_and_defaults :
    (∀ (p : Project) (action : String),
      (manage_projects_action p action).id = p.id ∧
      (manage_projects_action p action).createur = p.createur ∧
      (manage_projects_action p action).description = p.description ∧
      (manage_projects_action p action).ville = p.ville ∧
      (manage_projects_action p action).created_at = p.created_at ∧
      (manage_projects_action p action).comments_count = p.comments_count ∧
      (manage_projects_action p action).needs_count = p.needs_count ∧
      (manage_projects_action p action).validated_at = p.validated_at ∧
      (manage_projects_action p action).archived_at = p.archived_at ∧
      (manage_projects_action p action).visits_count = p.visits_count) ∧
    (∀ ps, ReachableProjects ps → ∀ p ∈ ps, untouchedColumns p) := by
  refine ⟨manage_projects_action_frame, ?_⟩
  intro ps hreach
  induction hreach with
  | refl => intro p hp; cases hp
  | tail hsteps hstep ih =>
    intro p hp
    cases hstep with
    | create i u d v t =>
      rcases List.mem_append.mp hp with h | h
      · exact ih p h
      · rw [List.mem_singleton] at h
        subst h
        exact ⟨rfl, rfl, rfl, rfl⟩
    | edit pid d v =>
      rw [edit_project_row] at hp
      obtain ⟨q, hq, rfl⟩ := List.mem_map.mp hp
      have hinv := ih q hq
      by_cases hid : (q.id == pid) = true <;> simpa [untouchedColumns, hid]
        using hinv
    | visit pid =>
      rw [visit_project] at hp
      obtain ⟨q, hq, rfl⟩ := List.mem_map.mp hp
      have hinv := ih q hq
      by_cases hid : (q.id == pid) = true <;> simpa [untouchedColumns, hid]
        using hinv
    | admin pid action =>
      rw [manage_projects_table] at hp
      obtain ⟨q, hq, rfl⟩ := List.mem_map.mp hp
      have hinv := ih q hq
      by_cases hid : (q.id == pid) = true
      · obtain ⟨-, -, -, -, -, hcc, hnc, hva, har, -⟩ :=
          manage_projects_action_frame q action
        rw [untouchedColumns] at hinv ⊢
        simp only [hid, if_true, hcc, hnc, hva, har]
        exact hinv
      · simpa [untouchedColumns, hid] using hinv
    | remove pid =>
      rw [remove_project] at hp
      exact ih p (List.mem_filter.mp hp).1
    | removeUser uid =>
      rw [remove_user_projects] at hp
      exact ih p (List.mem_filter.mp hp).1

/-- Witness for C10: one `new_project` step from the empty table reaches a
table whose single row still has the four never-written columns at their
defaults. -/
theorem admin_actions_frame_and_defaults_witness :
    untouchedColumns (mkProject 1 1 "jardin" none 0) :=
  (admin_actions_frame_and_defaults.2 ([] ++ [mkProject 1 1 "jardin" none 0])
      (Relation.ReflTransGen.single (ProjStep.create [] 1 1 "jardin" none 0)))
    (mkProject 1 1 "jardin" none 0) (by simp)

end ESag
